import Mathlib

/-!
Verification of the homebridge-atomberg-fan core against its specification.

The development shallowly embeds the TypeScript sources:
* `src/broadcastListener.ts` — the UDP broadcast decoder (`parseMessage`):
  hex text → UTF-8 text → JSON → integer state code → bitfield extraction,
  using JavaScript's 32-bit signed bitwise semantics (`ToInt32`).
* `src/atombergApi.ts` — the session manager (`login`, `retryLogin`) as an
  explicit state machine over the instance fields `accessToken`,
  `_loginRefreshInterval` and `_loginRetryTimeouts`, together with the set of
  timers actually pending in the runtime, and the credential gates of
  `getAllDevices`, `getDeviceState`, `sendCommand`.
* `src/platform.ts` — the reconciliation partitioning of `discoverDevices`.
* `src/platformAccessory.ts` — `refreshDeviceStatus`.

Machine integers are modelled as `Nat`/`Int` with explicit reductions modulo
`2^32` where JavaScript coerces via `ToInt32`/`ToUint32`.
-/

/-! ## JavaScript 32-bit bitwise arithmetic -/

/-- JavaScript `ToUint32`: reduce an integer modulo `2^32` to `[0, 2^32)`. -/
def toUint32 (n : Int) : Nat := (n % 4294967296).toNat

/-- Reinterpret a value in `[0, 2^32)` as a signed 32-bit integer
(the value a JavaScript bitwise operator returns). -/
def ofUint32 (n : Nat) : Int :=
  if n < 2147483648 then (n : Int) else (n : Int) - 4294967296

/-- JavaScript `a & b`: both operands are coerced with `ToInt32`/`ToUint32`,
the bitwise and is taken on 32 bits, and the result is read back signed. -/
def jsAnd (a b : Int) : Int := ofUint32 (toUint32 a &&& toUint32 b)

/-! ## The broadcast state-code bitfield decoder

`parseMessage` (broadcastListener.ts, lines 117–138) derives every attribute
from one integer state code via fixed masks.  JavaScript coerces the
comma-split string through `ToNumber`/`ToInt32` at each `&`; a string that is
not numeric becomes `NaN`, and `ToInt32 NaN = 0`. -/

/-- A JSON value as produced by `JSON.parse`.  Strings are `List Char` to keep
kernel evaluation of concrete datagrams cheap. -/
inductive Json where
  | null : Json
  | bool : Bool → Json
  | num : Int → Json
  | str : List Char → Json
  | arr : List Json → Json
  | obj : List (List Char × Json) → Json

/-- The `AtombergFanDeviceState` record built by `parseMessage`
(model.ts / broadcastListener.ts).  `device_id` is whatever JSON value the
payload carried (`none` when the key is absent, i.e. `undefined`). -/
structure AtombergFanDeviceState where
  device_id : Option Json
  is_online : Bool
  power : Bool
  led : Bool
  sleep_mode : Bool
  last_recorded_speed : Int
  timer_hours : Int
  timer_time_elapsed_mins : Int
  last_recorded_brightness : Int
  last_recorded_color : String

/-- The bitfield-extraction block of `parseMessage`
(broadcastListener.ts, lines 117–139), applied to the already-coerced integer
state code `c`.  Divisions are exact (the masked value always has the divided
power of two as a factor), so integer division agrees with JavaScript's float
division here. -/
def decodeStateCode (deviceId : Option Json) (c : Int) : AtombergFanDeviceState :=
  let power := decide (0 < jsAnd 0x10 c)
  let led := decide (0 < jsAnd 0x20 c)
  let sleep := decide (0 < jsAnd 0x80 c)
  let speed := jsAnd 0x07 c
  let fanTimer := jsAnd 0x0F0000 c / 65536
  let fanTimerElapsedMins := jsAnd 0xFF000000 c * 4 / 16777216
  let brightness := jsAnd 0x7F00 c / 256
  let cool := decide (0 < jsAnd 0x08 c)
  let warm := decide (0 < jsAnd 0x8000 c)
  { device_id := deviceId
    is_online := true
    power := power
    led := led
    sleep_mode := sleep
    last_recorded_speed := speed
    timer_hours := fanTimer
    timer_time_elapsed_mins := fanTimerElapsedMins
    last_recorded_brightness := brightness
    last_recorded_color := if cool then (if warm then "Daylight" else "Cool") else "Warm" }

/-- Modelled from the spec: "constructing a state code from a chosen set of
flags/fields" (§8, bitfield round-trip).  Packs the fields at the mask
positions of §4.3. -/
def mkStateCode (power led sleep cool warm : Bool)
    (speed brightness timer elapsed : Nat) : Nat :=
  speed + (if cool then 0x08 else 0) + (if power then 0x10 else 0) +
    (if led then 0x20 else 0) + (if sleep then 0x80 else 0) +
    brightness * 0x100 + (if warm then 0x8000 else 0) +
    timer * 0x10000 + elapsed * 0x1000000

/-! ## The broadcast decode pipeline

`parseMessage` (broadcastListener.ts, lines 110–144): interpret the datagram's
text as hex, decode to text, `JSON.parse` it, read `state_string`, split at
the first comma, coerce to a number, and extract the bitfields.  Every
fallible step lives in `Except` (a JavaScript throw); the surrounding
`try`/`catch` is `parseMessage`, which converts any error to `null`. -/

/-- `Buffer.toString` on raw bytes, one byte per character (the datagram and
the hex-decoded payload are ASCII in every well-formed broadcast, where this
agrees with UTF-8). -/
def bytesToChars (bs : List Nat) : List Char := bs.map (fun b => Char.ofNat (b % 256))

/-- Value of a hexadecimal digit character, or `none`. -/
def hexDigitVal (c : Char) : Option Nat :=
  if '0' ≤ c ∧ c ≤ '9' then some (c.toNat - 48)
  else if 'a' ≤ c ∧ c ≤ 'f' then some (c.toNat - 97 + 10)
  else if 'A' ≤ c ∧ c ≤ 'F' then some (c.toNat - 65 + 10)
  else none

/-- `Buffer.from(hexString, 'hex')`: Node's relaxed hex decoder consumes
digit pairs and stops (without throwing) at the first invalid pair or odd
leftover character. -/
def hexDecode : List Char → List Nat
  | c1 :: c2 :: rest =>
    match hexDigitVal c1, hexDigitVal c2 with
    | some hi, some lo => (16 * hi + lo) :: hexDecode rest
    | _, _ => []
  | _ => []

/-- JSON insignificant whitespace. -/
def isJsonWs (c : Char) : Bool := c = ' ' || c = '\t' || c = '\n' || c = '\r'

def skipWs : List Char → List Char
  | [] => []
  | c :: rest => if isJsonWs c then skipWs rest else c :: rest

/-- One-character JSON escape sequences (`\uXXXX` is omitted from the model;
inputs using it are treated as parse failures, which only narrows the set of
accepted datagrams and does not affect totality). -/
def unescapeChar (c : Char) : Option Char :=
  if c = '"' then some '"'
  else if c = '\\' then some '\\'
  else if c = '/' then some '/'
  else if c = 'b' then some (Char.ofNat 8)
  else if c = 'f' then some (Char.ofNat 12)
  else if c = 'n' then some '\n'
  else if c = 'r' then some '\r'
  else if c = 't' then some '\t'
  else none

/-- Body of a JSON string literal, after the opening quote.  Returns the
content and the remainder after the closing quote. -/
def parseStringBody : List Char → Except String (List Char × List Char)
  | [] => .error "Unexpected end of JSON input"
  | '"' :: rest => .ok ([], rest)
  | '\\' :: c :: rest =>
    match unescapeChar c with
    | some e =>
      match parseStringBody rest with
      | .ok (s, r) => .ok (e :: s, r)
      | .error msg => .error msg
    | none => .error "Bad escaped character in JSON"
  | c :: rest =>
    match parseStringBody rest with
    | .ok (s, r) => .ok (c :: s, r)
    | .error msg => .error msg

/-- Value of a decimal digit character, or `none`. -/
def digitVal (c : Char) : Option Nat :=
  if '0' ≤ c ∧ c ≤ '9' then some (c.toNat - 48) else none

/-- Consume leading decimal digits, extending the accumulator. -/
def parseDigits : List Char → Nat → Nat × List Char
  | [], acc => (acc, [])
  | c :: rest, acc =>
    match digitVal c with
    | some d => parseDigits rest (acc * 10 + d)
    | none => (acc, c :: rest)

mutual

/-- Recursive-descent `JSON.parse` on fuel (numbers are modelled as integers;
fraction/exponent forms are treated as parse failures — the broadcast
payloads only carry strings and integers, and totality is unaffected). -/
def parseJsonValue : Nat → List Char → Except String (Json × List Char)
  | 0, _ => .error "JSON input too deeply nested"
  | fuel + 1, s =>
    match skipWs s with
    | 'n' :: 'u' :: 'l' :: 'l' :: rest => .ok (.null, rest)
    | 't' :: 'r' :: 'u' :: 'e' :: rest => .ok (.bool true, rest)
    | 'f' :: 'a' :: 'l' :: 's' :: 'e' :: rest => .ok (.bool false, rest)
    | '"' :: rest =>
      match parseStringBody rest with
      | .ok (cs, r) => .ok (.str cs, r)
      | .error msg => .error msg
    | '-' :: c :: rest =>
      match digitVal c with
      | some d =>
        match parseDigits rest d with
        | (n, r) => .ok (.num (-(n : Int)), r)
      | none => .error "Unexpected token in JSON"
    | '[' :: rest =>
      match skipWs rest with
      | ']' :: r2 => .ok (.arr [], r2)
      | _ => parseJsonItems fuel rest []
    | '{' :: rest =>
      match skipWs rest with
      | '}' :: r2 => .ok (.obj [], r2)
      | _ => parseJsonMembers fuel rest []
    | c :: rest =>
      match digitVal c with
      | some d =>
        match parseDigits rest d with
        | (n, r) => .ok (.num (n : Int), r)
      | none => .error "Unexpected token in JSON"
    | [] => .error "Unexpected end of JSON input"

/-- Comma-separated array items up to `]`. -/
def parseJsonItems : Nat → List Char → List Json → Except String (Json × List Char)
  | 0, _, _ => .error "JSON input too deeply nested"
  | fuel + 1, s, acc =>
    match parseJsonValue fuel s with
    | .error msg => .error msg
    | .ok (v, r) =>
      match skipWs r with
      | ',' :: r2 => parseJsonItems fuel r2 (acc ++ [v])
      | ']' :: r2 => .ok (.arr (acc ++ [v]), r2)
      | _ => .error "Expected comma or closing bracket in JSON array"

/-- Comma-separated `"key": value` members up to `}`. -/
def parseJsonMembers : Nat → List Char → List (List Char × Json) →
    Except String (Json × List Char)
  | 0, _, _ => .error "JSON input too deeply nested"
  | fuel + 1, s, acc =>
    match skipWs s with
    | '"' :: rest =>
      match parseStringBody rest with
      | .error msg => .error msg
      | .ok (key, r) =>
        match skipWs r with
        | ':' :: r2 =>
          match parseJsonValue fuel r2 with
          | .error msg => .error msg
          | .ok (v, r3) =>
            match skipWs r3 with
            | ',' :: r4 => parseJsonMembers fuel r4 (acc ++ [(key, v)])
            | '}' :: r4 => .ok (.obj (acc ++ [(key, v)]), r4)
            | _ => .error "Expected comma or closing brace in JSON object"
        | _ => .error "Expected colon in JSON object"
    | _ => .error "Expected property name in JSON object"

end

/-- `JSON.parse`: a whole-input parse, rejecting trailing garbage. -/
def jsonParse (s : List Char) : Except String Json :=
  match parseJsonValue (s.length + 1) s with
  | .error msg => .error msg
  | .ok (v, rest) =>
    match skipWs rest with
    | [] => .ok v
    | _ => .error "Unexpected non-whitespace character after JSON"

/-- Property lookup on a parsed JSON object; with duplicate keys,
`JSON.parse` keeps the last occurrence. -/
def jsonLookup : List (List Char × Json) → List Char → Option Json
  | [], _ => none
  | (k, v) :: rest, key =>
    match jsonLookup rest key with
    | some w => some w
    | none => if k = key then some v else none

/-- `jsonMessage['state_string'].split(...)`: only an object carrying a
string under `state_string` succeeds; any other shape makes the `.split`
call throw (`undefined`/non-string has no `split`). -/
def getStateString : Json → Except String (List Char)
  | .obj fields =>
    match jsonLookup fields "state_string".toList with
    | some (.str s) => .ok s
    | _ => .error "TypeError: jsonMessage.state_string.split is not a function"
  | _ => .error "TypeError: cannot read properties of jsonMessage"

/-- `jsonMessage['device_id']`: plain property read, `undefined` when absent
(only evaluated after `state_string` proved the value is an object). -/
def getDeviceId : Json → Option Json
  | .obj fields => jsonLookup fields "device_id".toList
  | _ => none

/-- `s.split(',')[0]`: the prefix before the first comma. -/
def takeUntilComma : List Char → List Char
  | [] => []
  | c :: rest => if c = ',' then [] else c :: takeUntilComma rest

/-- Whitespace-trim both ends (JavaScript `ToNumber` ignores surrounding
whitespace). -/
def trimWs (s : List Char) : List Char := (skipWs (skipWs s.reverse).reverse)

/-- All-decimal-digits value of a string tail. -/
def allDigitsVal : List Char → Nat → Option Nat
  | [], acc => some acc
  | c :: rest, acc =>
    match digitVal c with
    | some d => allDigitsVal rest (acc * 10 + d)
    | none => none

/-- JavaScript `ToNumber` on a string, restricted to the optional-sign
decimal-integer forms the broadcast protocol uses (`none` is `NaN`; hex,
fraction and exponent literal forms are treated as `NaN` — a simplification
that only affects which strings are numeric, not the totality or the
bitfield arithmetic the claims are about). The empty/whitespace string is 0. -/
def jsToNumber (s : List Char) : Option Int :=
  match trimWs s with
  | [] => some 0
  | '-' :: rest =>
    match rest with
    | [] => none
    | _ => (allDigitsVal rest 0).map (fun n => -(n : Int))
  | '+' :: rest =>
    match rest with
    | [] => none
    | _ => (allDigitsVal rest 0).map (fun n => (n : Int))
  | t => (allDigitsVal t 0).map (fun n => (n : Int))

/-- The `try` block of `parseMessage` (broadcastListener.ts, lines 111–139):
any `Except.error` is a JavaScript throw inside the block.  `ToInt32 NaN = 0`,
so a non-numeric state code yields code `0` rather than a throw (matching
`& stateCode` on a `NaN` coercion). -/
def parseMessageBody (message : List Nat) : Except String AtombergFanDeviceState :=
  let hexString := bytesToChars message
  let stringMessage := bytesToChars (hexDecode hexString)
  match jsonParse stringMessage with
  | .error msg => .error msg
  | .ok jsonMessage =>
    match getStateString jsonMessage with
    | .error msg => .error msg
    | .ok stateString =>
      .ok (decodeStateCode (getDeviceId jsonMessage)
        ((jsToNumber (takeUntilComma stateString)).getD 0))

/-- `parseMessage` with its `try`/`catch`: every thrown fault is caught,
logged and converted to `null` (broadcastListener.ts, lines 140–143). -/
def parseMessage (message : List Nat) : Option AtombergFanDeviceState :=
  match parseMessageBody message with
  | .ok st => some st
  | .error _ => none

/-! ## The session manager (atombergApi.ts)

`login()` runs in two phases on the single-threaded event loop: a synchronous
prefix that cancels timers and issues the request (lines 37–52), and a
completion handler for the settled response (lines 53–66).  The instance
fields `accessToken`, `_loginRefreshInterval` and `_loginRetryTimeouts` are
modelled together with the runtime's pending-timer sets, so that
`clearTimeout`/`clearInterval`/`setTimeout`/`setInterval` have their real
effect; timer handles are identified by a fresh counter. -/

def LOGIN_RETRY_DELAY : Nat := 360 * 1000

def LOGIN_TOKEN_REFRESH_INTERVAL : Nat := 60 * 60 * 23 * 1000

structure AtombergApiState where
  accessToken : String
  /-- `_loginRefreshInterval`: the stored handle, if any. -/
  loginRefreshInterval : Option Nat
  /-- `_loginRetryTimeouts`: the array of pushed handles (never emptied). -/
  loginRetryTimeouts : List Nat
  /-- Runtime: retry timeouts scheduled, not yet fired and not cleared. -/
  activeRetryTimers : List Nat
  /-- Runtime: intervals scheduled and not cleared. -/
  activeRefreshTimers : List Nat
  /-- Fresh-handle counter. -/
  nextTimerId : Nat
deriving DecidableEq

/-- The constructor sets `accessToken = ''`; no timers exist yet. -/
def initialApiState : AtombergApiState :=
  { accessToken := ""
    loginRefreshInterval := none
    loginRetryTimeouts := []
    activeRetryTimers := []
    activeRefreshTimers := []
    nextTimerId := 0 }

/-- The synchronous prefix of `login()` (lines 37–40): `clearTimeout` every
handle in `_loginRetryTimeouts`, then `clearInterval(_loginRefreshInterval)`.
Clearing a dead handle is a no-op; the array and the stored handle are not
reset. -/
def loginStart (s : AtombergApiState) : AtombergApiState :=
  { s with
    activeRetryTimers :=
      s.activeRetryTimers.filter (fun i => decide (i ∉ s.loginRetryTimeouts))
    activeRefreshTimers :=
      s.activeRefreshTimers.filter (fun i => decide (s.loginRefreshInterval ≠ some i)) }

/-- How the login request settles: a 2xx envelope with `status = 'Success'`
carrying a token, a 2xx envelope with any other status, or an axios
rejection (non-2xx response or network error). -/
inductive LoginOutcome where
  | success (token : String)
  | badStatus (message : String)
  | transportError (error : String)

inductive TimerKind where
  | retry
  | refresh
deriving DecidableEq

/-- A timer registration performed while handling a settled login. -/
structure ScheduledTimer where
  kind : TimerKind
  delay : Nat
deriving DecidableEq

/-- `retryLogin` (lines 69–83): log, then push one
`setTimeout(login, LOGIN_RETRY_DELAY)` handle onto `_loginRetryTimeouts`. -/
def retryLogin (s : AtombergApiState) : AtombergApiState × List ScheduledTimer :=
  ({ s with
      loginRetryTimeouts := s.loginRetryTimeouts ++ [s.nextTimerId]
      activeRetryTimers := s.activeRetryTimers ++ [s.nextTimerId]
      nextTimerId := s.nextTimerId + 1 },
   [{ kind := .retry, delay := LOGIN_RETRY_DELAY }])

/-- The value a JavaScript async function resolves with; `login`'s handlers
return nothing, i.e. `undefined`. -/
inductive JsValue where
  | undefined
deriving DecidableEq

/-- The `.then`/`.catch` completion of `login()` (lines 53–66), returning the
updated instance state, the timers scheduled by this completion, and how the
promise settles (`Except.error` would be a rejection). -/
def loginSettle (s : AtombergApiState) (o : LoginOutcome) :
    AtombergApiState × List ScheduledTimer × Except String JsValue :=
  match o with
  | .success tok =>
    ({ s with
        accessToken := tok
        loginRefreshInterval := some s.nextTimerId
        activeRefreshTimers := s.activeRefreshTimers ++ [s.nextTimerId]
        nextTimerId := s.nextTimerId + 1 },
     [{ kind := .refresh, delay := LOGIN_TOKEN_REFRESH_INTERVAL }], .ok .undefined)
  | .badStatus _ =>
    let s1 := { s with accessToken := "" }
    let (s2, sch) := retryLogin s1
    (s2, sch, .ok .undefined)
  | .transportError _ =>
    let (s2, sch) := retryLogin s
    (s2, sch, .ok .undefined)

/-- An event-loop step involving the session manager: a `login()` call
starting (its synchronous prefix) or an in-flight login settling. -/
inductive LoginEvent where
  | start
  | settle (o : LoginOutcome)

def loginStep (s : AtombergApiState) : LoginEvent → AtombergApiState
  | .start => loginStart s
  | .settle o => (loginSettle s o).1

/-- Run a sequence of interleaved login events from a state. -/
def runLogin (s : AtombergApiState) (events : List LoginEvent) : AtombergApiState :=
  events.foldl loginStep s

/-- One complete non-overlapping `login()`: the synchronous prefix followed
immediately by its own settlement. -/
def sequentialLogin (s : AtombergApiState) (o : LoginOutcome) : AtombergApiState :=
  (loginSettle (loginStart s) o).1

def sequentialLogins (s : AtombergApiState) (os : List LoginOutcome) : AtombergApiState :=
  os.foldl sequentialLogin s

/-- `didFinishLaunching` (platform.ts, lines 63–72): the resolved value of
`login()` is inspected with `if (!res)`; discovery runs only on a truthy
value. -/
def jsTruthy : JsValue → Bool
  | .undefined => false

/-! ## The vendor API credential gates (atombergApi.ts)

`getAllDevices` (lines 93–96), `getDeviceState` (lines 127–130) and
`sendCommand` (lines 163–166) each begin with `if (!this.accessToken)` and
reject before building any HTTP request.  The gate is modelled as the phase
up to the request: `.error` rejects with no request, `.ok` names the request
that would be issued. -/

def noAuthTokenMsg : String :=
  "No auth token available (login probably failed). " ++
    "Check your credentials and restart HomeBridge."

structure AtombergFanCommandData where
  device_id : String
  power : Option Bool
  speed : Option Int
deriving DecidableEq

inductive ApiRequest where
  | getDevicesRequest
  | getDeviceStateRequest
  | sendCommandRequest (data : AtombergFanCommandData)
deriving DecidableEq

def getAllDevicesGate (accessToken : String) : Except String ApiRequest :=
  if accessToken = "" then .error noAuthTokenMsg else .ok .getDevicesRequest

def getDeviceStateGate (accessToken : String) : Except String ApiRequest :=
  if accessToken = "" then .error noAuthTokenMsg else .ok .getDeviceStateRequest

def sendCommandGate (accessToken : String) (data : AtombergFanCommandData) :
    Except String ApiRequest :=
  if accessToken = "" then .error noAuthTokenMsg else .ok (.sendCommandRequest data)

/-! ## Reconciliation partitioning (platform.ts, `discoverDevices`)

The pass iterates the remote inventory; a device whose generated UUID matches
a cached accessory is restored/updated, otherwise added; afterwards every
cached accessory whose `device_id` is absent from the remote inventory is
unregistered (lines 113–173).  `uuid.generate` is a deterministic function of
`device_id`, so matching on UUIDs is matching on device identifiers. -/

def discoverPartition (remote cached : List String) :
    List String × List String × List String :=
  let added := remote.filter (fun d => !(cached.contains d))
  let updated := remote.filter (fun d => cached.contains d)
  let removed := cached.filter (fun d => !(remote.contains d))
  (added, updated, removed)

/-! ## The accessory consumer state (platformAccessory.ts)

`refreshDeviceStatus` (lines 141–176) pushes a decoded state into the
HomeKit `Fanv2` service: `Active` from `power`, `RotationSpeed` from
`last_recorded_speed` clamped to 5 and scaled by 20.  The externally visible
characteristic values are the consumer state. -/

structure FanServiceState where
  active : Int
  rotationSpeed : Int
deriving DecidableEq

/-- `Characteristic.Active.ACTIVE`. -/
def ACTIVE : Int := 1

/-- `Characteristic.Active.INACTIVE`. -/
def INACTIVE : Int := 0

/-- `refreshDeviceStatus`: an offline state returns before any
`updateCharacteristic`/`updateValue` call; an online state overwrites both
characteristics. -/
def refreshDeviceStatus (svc : FanServiceState)
    (deviceState : AtombergFanDeviceState) : FanServiceState :=
  if !deviceState.is_online then svc
  else
    let active := if deviceState.power then ACTIVE else INACTIVE
    let fanSpeed :=
      if deviceState.last_recorded_speed > 5 then 5 else deviceState.last_recorded_speed
    { active := active, rotationSpeed := fanSpeed * 20 }

/-- The session-manager timer invariant maintained across non-overlapping
logins: every pending retry timeout is recorded in `_loginRetryTimeouts`
(so the next `login()` can cancel it), at most one retry timeout is pending,
and the active refresh intervals are at most the one stored in
`_loginRefreshInterval`. -/
def LoginInv (s : AtombergApiState) : Prop :=
  (∀ i ∈ s.activeRetryTimers, i ∈ s.loginRetryTimeouts) ∧
  s.activeRetryTimers.length ≤ 1 ∧
  (s.activeRefreshTimers = [] ∨
    ∃ r, s.loginRefreshInterval = some r ∧ s.activeRefreshTimers = [r])

/-- A concrete offline device state (state updates with `is_online = false`
arrive from the polling endpoint; the broadcast decoder always reports
online). -/
def offlineStateExample : AtombergFanDeviceState :=
  { device_id := none
    is_online := false
    power := true
    led := false
    sleep_mode := false
    last_recorded_speed := 3
    timer_hours := 0
    timer_time_elapsed_mins := 0
    last_recorded_brightness := 0
    last_recorded_color := "Warm" }

/-! ## Concrete datagrams for evaluation -/

/-- The UTF-8 bytes of the hex encoding of
`{"device_id":"x","state_string":"7"}` — a well-formed broadcast whose state
code is 7. -/
def datagramSpeed7 : List Nat :=
  [55, 98, 50, 50, 54, 52, 54, 53, 55, 54, 54, 57, 54, 51, 54, 53, 53, 102,
   54, 57, 54, 52, 50, 50, 51, 97, 50, 50, 55, 56, 50, 50, 50, 99, 50, 50,
   55, 51, 55, 52, 54, 49, 55, 52, 54, 53, 53, 102, 55, 51, 55, 52, 55, 50,
   54, 57, 54, 101, 54, 55, 50, 50, 51, 97, 50, 50, 51, 55, 50, 50, 55, 100]

/-- The bytes of `"zz"` — not valid hex, so the relaxed hex decode yields no
bytes and `JSON.parse("")` throws. -/
def datagramBadHex : List Nat := [122, 122]

/-- The UTF-8 bytes of the hex encoding of `{"device_id":"x"}` — valid JSON
with no `state_string`, so `.split` throws on `undefined`. -/
def datagramMissingField : List Nat :=
  [55, 98, 50, 50, 54, 52, 54, 53, 55, 54, 54, 57, 54, 51, 54, 53, 53, 102,
   54, 57, 54, 52, 50, 50, 51, 97, 50, 50, 55, 56, 50, 50, 55, 100]

/-! ### Bitmask arithmetic -/

/-- A contiguous bitmask `(2^k - 1) * 2^m` selects the `k`-bit field at
offset `m`: the result is that field, still in place. -/
theorem land_mask (k m c : Nat) :
    (2 ^ k - 1) * 2 ^ m &&& c = c / 2 ^ m % 2 ^ k * 2 ^ m := by
  apply Nat.eq_of_testBit_eq
  intro i
  rcases Nat.lt_or_ge i m with h | h
  · rw [← Nat.shiftLeft_eq (2 ^ k - 1) m, ← Nat.shiftLeft_eq (c / 2 ^ m % 2 ^ k) m]
    simp [Nat.testBit_and, Nat.testBit_shiftLeft, Nat.not_le.mpr h]
  · have hm : m + (i - m) = i := by omega
    rw [← Nat.shiftLeft_eq (2 ^ k - 1) m, ← Nat.shiftLeft_eq (c / 2 ^ m % 2 ^ k) m,
      ← Nat.shiftRight_eq_div_pow]
    by_cases hk : i - m < k <;>
      simp [Nat.testBit_and, Nat.testBit_shiftLeft, Nat.testBit_mod_two_pow,
        Nat.testBit_shiftRight, Nat.testBit_two_pow_sub_one, h, hm, hk]

theorem toUint32_natCast (m : Nat) (h : m < 4294967296) : toUint32 (m : Int) = m := by
  unfold toUint32
  rw [Int.emod_eq_of_lt (by positivity) (by exact_mod_cast h)]
  exact Int.toNat_natCast m

theorem ofUint32_small (n : Nat) (h : n < 2147483648) : ofUint32 n = (n : Int) := by
  unfold ofUint32
  rw [if_pos h]

/-- Evaluating `jsAnd` at a contiguous mask `(2^k - 1) * 2^m` below `2^31`:
the result is the selected field of the unsigned 32-bit operand, in place. -/
theorem jsAnd_mask (k m : Nat) (c : Int) (hmask : (2 ^ k - 1) * 2 ^ m < 2147483648) :
    jsAnd (((2 ^ k - 1) * 2 ^ m : Nat) : Int) c =
      ((toUint32 c / 2 ^ m % 2 ^ k * 2 ^ m : Nat) : Int) := by
  unfold jsAnd
  rw [toUint32_natCast _ (by omega), land_mask]
  apply ofUint32_small
  have h1 : toUint32 c / 2 ^ m % 2 ^ k ≤ 2 ^ k - 1 := by
    have := Nat.mod_lt (toUint32 c / 2 ^ m) (show 0 < 2 ^ k by positivity)
    omega
  calc toUint32 c / 2 ^ m % 2 ^ k * 2 ^ m ≤ (2 ^ k - 1) * 2 ^ m :=
        Nat.mul_le_mul_right _ h1
    _ < 2147483648 := hmask

theorem jsAnd_16 (c : Int) : jsAnd 16 c = ((toUint32 c / 16 % 2 * 16 : Nat) : Int) := by
  have h := jsAnd_mask 1 4 c (by norm_num)
  norm_num at h
  exact h

theorem jsAnd_32 (c : Int) : jsAnd 32 c = ((toUint32 c / 32 % 2 * 32 : Nat) : Int) := by
  have h := jsAnd_mask 1 5 c (by norm_num)
  norm_num at h
  exact h

theorem jsAnd_128 (c : Int) : jsAnd 128 c = ((toUint32 c / 128 % 2 * 128 : Nat) : Int) := by
  have h := jsAnd_mask 1 7 c (by norm_num)
  norm_num at h
  exact h

theorem jsAnd_8 (c : Int) : jsAnd 8 c = ((toUint32 c / 8 % 2 * 8 : Nat) : Int) := by
  have h := jsAnd_mask 1 3 c (by norm_num)
  norm_num at h
  exact h

theorem jsAnd_32768 (c : Int) :
    jsAnd 32768 c = ((toUint32 c / 32768 % 2 * 32768 : Nat) : Int) := by
  have h := jsAnd_mask 1 15 c (by norm_num)
  norm_num at h
  exact h

theorem jsAnd_7 (c : Int) : jsAnd 7 c = ((toUint32 c % 8 : Nat) : Int) := by
  have h := jsAnd_mask 3 0 c (by norm_num)
  norm_num at h
  exact h

theorem jsAnd_32512 (c : Int) :
    jsAnd 32512 c = ((toUint32 c / 256 % 128 * 256 : Nat) : Int) := by
  have h := jsAnd_mask 7 8 c (by norm_num)
  norm_num at h
  exact h

theorem jsAnd_983040 (c : Int) :
    jsAnd 983040 c = ((toUint32 c / 65536 % 16 * 65536 : Nat) : Int) := by
  have h := jsAnd_mask 4 16 c (by norm_num)
  norm_num at h
  exact h

theorem jsAnd_4278190080 (c : Int) :
    jsAnd 4278190080 c = ofUint32 (toUint32 c / 16777216 % 256 * 16777216) := by
  unfold jsAnd
  have h0 : toUint32 4278190080 = 4278190080 := rfl
  rw [h0, show (4278190080 : Nat) = (2 ^ 8 - 1) * 2 ^ 24 by norm_num, land_mask]
  norm_num

theorem decode_power (did : Option Json) (u : Nat) (hu : u < 4294967296) :
    (decodeStateCode did (u : Int)).power = decide (u / 16 % 2 = 1) := by
  simp only [decodeStateCode]
  rw [jsAnd_16, toUint32_natCast u hu, decide_eq_decide]
  omega

theorem decode_led (did : Option Json) (u : Nat) (hu : u < 4294967296) :
    (decodeStateCode did (u : Int)).led = decide (u / 32 % 2 = 1) := by
  simp only [decodeStateCode]
  rw [jsAnd_32, toUint32_natCast u hu, decide_eq_decide]
  omega

theorem decode_sleep (did : Option Json) (u : Nat) (hu : u < 4294967296) :
    (decodeStateCode did (u : Int)).sleep_mode = decide (u / 128 % 2 = 1) := by
  simp only [decodeStateCode]
  rw [jsAnd_128, toUint32_natCast u hu, decide_eq_decide]
  omega

theorem decode_speed (did : Option Json) (c : Int) :
    (decodeStateCode did c).last_recorded_speed = ((toUint32 c % 8 : Nat) : Int) := by
  simp only [decodeStateCode]
  rw [jsAnd_7]

theorem decode_timer (did : Option Json) (u : Nat) (hu : u < 4294967296) :
    (decodeStateCode did (u : Int)).timer_hours = ((u / 65536 % 16 : Nat) : Int) := by
  simp only [decodeStateCode]
  rw [jsAnd_983040, toUint32_natCast u hu]
  norm_cast
  omega

theorem decode_brightness (did : Option Json) (u : Nat) (hu : u < 4294967296) :
    (decodeStateCode did (u : Int)).last_recorded_brightness
      = ((u / 256 % 128 : Nat) : Int) := by
  simp only [decodeStateCode]
  rw [jsAnd_32512, toUint32_natCast u hu]
  norm_cast
  omega

theorem decode_elapsed (did : Option Json) (u : Nat) (hu : u < 4294967296) :
    (decodeStateCode did (u : Int)).timer_time_elapsed_mins
      = if u < 2147483648 then ((u / 16777216 : Nat) : Int) * 4
        else ((u / 16777216 : Nat) : Int) * 4 - 1024 := by
  simp only [decodeStateCode]
  rw [jsAnd_4278190080, toUint32_natCast u hu,
    Nat.mod_eq_of_lt (show u / 16777216 < 256 by omega)]
  by_cases h31 : u < 2147483648
  · rw [if_pos h31, ofUint32_small _ (by omega)]
    have he : ((u / 16777216 * 16777216 : Nat) : Int) * 4
        = ((u / 16777216 : Nat) : Int) * 4 * 16777216 := by
      push_cast
      ring
    rw [he, Int.mul_ediv_cancel _ (by norm_num)]
  · rw [if_neg h31]
    unfold ofUint32
    rw [if_neg (show ¬ u / 16777216 * 16777216 < 2147483648 by omega)]
    have he : (((u / 16777216 * 16777216 : Nat) : Int) - 4294967296) * 4
        = (((u / 16777216 : Nat) : Int) * 4 - 1024) * 16777216 := by
      push_cast
      ring
    rw [he, Int.mul_ediv_cancel _ (by norm_num)]

theorem decode_color (did : Option Json) (u : Nat) (hu : u < 4294967296) :
    (decodeStateCode did (u : Int)).last_recorded_color
      = if u / 8 % 2 = 1 then (if u / 32768 % 2 = 1 then "Daylight" else "Cool")
        else "Warm" := by
  simp only [decodeStateCode]
  have hcool : (decide (0 < jsAnd 8 (u : Int)) : Bool) = decide (u / 8 % 2 = 1) := by
    rw [jsAnd_8, toUint32_natCast u hu, decide_eq_decide]
    omega
  have hwarm : (decide (0 < jsAnd 32768 (u : Int)) : Bool) = decide (u / 32768 % 2 = 1) := by
    rw [jsAnd_32768, toUint32_natCast u hu, decide_eq_decide]
    omega
  rw [hcool, hwarm]
  by_cases h1 : u / 8 % 2 = 1 <;> by_cases h2 : u / 32768 % 2 = 1 <;> simp [h1, h2]

theorem decode_online (did : Option Json) (c : Int) :
    (decodeStateCode did c).is_online = true := rfl

/-- C4: Bitfield round-trip: for every integer state code constructed from
chosen flags/fields, decoding reproduces exactly those flags — bit `0x10`
gives `power`, `0x20` gives `led`, `0x80` gives `sleep_mode`, the low 3 bits
give `speed`, and the colour mode resolves from bits `0x08` (cool) and
`0x8000` (warm) as: cool false → "Warm"; cool true and warm false → "Cool";
both true → "Daylight". -/
theorem c4_bitfield_roundtrip (power led sleep cool warm : Bool)
    (speed brightness timer elapsed : Nat)
    (hs : speed < 8) (hb : brightness < 128) (ht : timer < 16) (he : elapsed < 256)
    (c : Nat) (hc : c = mkStateCode power led sleep cool warm speed brightness timer elapsed) :
    (decodeStateCode none (c : Int)).power = power ∧
    (decodeStateCode none (c : Int)).led = led ∧
    (decodeStateCode none (c : Int)).sleep_mode = sleep ∧
    (decodeStateCode none (c : Int)).last_recorded_speed = (speed : Int) ∧
    (decodeStateCode none (c : Int)).last_recorded_color
      = (if cool then (if warm then "Daylight" else "Cool") else "Warm") := by
  have hu : c < 4294967296 := by
    subst hc
    simp only [mkStateCode]
    split_ifs <;> omega
  have h16 : c / 16 % 2 = (if power then 1 else 0) := by
    subst hc
    simp only [mkStateCode]
    split_ifs <;> omega
  have h32 : c / 32 % 2 = (if led then 1 else 0) := by
    subst hc
    simp only [mkStateCode]
    split_ifs <;> omega
  have h128 : c / 128 % 2 = (if sleep then 1 else 0) := by
    subst hc
    simp only [mkStateCode]
    split_ifs <;> omega
  have h8 : c / 8 % 2 = (if cool then 1 else 0) := by
    subst hc
    simp only [mkStateCode]
    split_ifs <;> omega
  have h32768 : c / 32768 % 2 = (if warm then 1 else 0) := by
    subst hc
    simp only [mkStateCode]
    split_ifs <;> omega
  have hmod8 : c % 8 = speed := by
    subst hc
    simp only [mkStateCode]
    split_ifs <;> omega
  refine ⟨?_, ?_, ?_, ?_, ?_⟩
  · rw [decode_power none c hu, h16]
    cases power <;> simp
  · rw [decode_led none c hu, h32]
    cases led <;> simp
  · rw [decode_sleep none c hu, h128]
    cases sleep <;> simp
  · rw [decode_speed, toUint32_natCast c hu, hmod8]
  · rw [decode_color none c hu, h8, h32768]
    cases cool <;> cases warm <;> simp

/-- Witness for C4 at the spec's example: code `0x10 ||| 0x03 = 19` (power
bit set, speed field 3) decodes to `power = true`, `speed = 3`, colour
"Warm". -/
theorem c4_bitfield_roundtrip_witness :
    (decodeStateCode none ((19 : Nat) : Int)).power = true ∧
    (decodeStateCode none ((19 : Nat) : Int)).led = false ∧
    (decodeStateCode none ((19 : Nat) : Int)).sleep_mode = false ∧
    (decodeStateCode none ((19 : Nat) : Int)).last_recorded_speed = ((3 : Nat) : Int) ∧
    (decodeStateCode none ((19 : Nat) : Int)).last_recorded_color
      = (if false then (if false then "Daylight" else "Cool") else "Warm") :=
  c4_bitfield_roundtrip true false false false false 3 0 0 0
    (by decide) (by decide) (by decide) (by decide) 19 (by decide)

/-! ## Session-manager timer lemmas -/

theorem loginStart_clears (s : AtombergApiState)
    (hsub : ∀ i ∈ s.activeRetryTimers, i ∈ s.loginRetryTimeouts) :
    (loginStart s).activeRetryTimers = [] := by
  simp only [loginStart]
  rw [List.filter_eq_nil_iff]
  intro a ha
  simp [hsub a ha]

theorem loginStart_refresh_cleared (s : AtombergApiState) (r : Nat)
    (hr : s.loginRefreshInterval = some r) :
    r ∉ (loginStart s).activeRefreshTimers := by
  intro hmem
  simp only [loginStart] at hmem
  rw [List.mem_filter] at hmem
  simp [hr] at hmem

theorem loginStart_refresh_empty (s : AtombergApiState)
    (h : s.activeRefreshTimers = [] ∨
      ∃ r, s.loginRefreshInterval = some r ∧ s.activeRefreshTimers = [r]) :
    (loginStart s).activeRefreshTimers = [] := by
  rcases h with h0 | ⟨r, hr, hl⟩
  · simp [loginStart, h0]
  · simp [loginStart, hl, hr]

theorem loginInv_initial : LoginInv initialApiState := by
  simp [LoginInv, initialApiState]

theorem loginInv_step (s : AtombergApiState) (o : LoginOutcome) (h : LoginInv s) :
    LoginInv (sequentialLogin s o) := by
  obtain ⟨hsub, hlen, href⟩ := h
  have h1 : (loginStart s).activeRetryTimers = [] := loginStart_clears s hsub
  have h2 : (loginStart s).activeRefreshTimers = [] := loginStart_refresh_empty s href
  cases o with
  | success tok =>
    refine ⟨?_, ?_, Or.inr ⟨(loginStart s).nextTimerId, ?_, ?_⟩⟩ <;>
      simp [sequentialLogin, loginSettle, h1, h2]
  | badStatus msg =>
    refine ⟨?_, ?_, Or.inl ?_⟩ <;>
      simp [sequentialLogin, loginSettle, retryLogin, h1, h2]
  | transportError e =>
    refine ⟨?_, ?_, Or.inl ?_⟩ <;>
      simp [sequentialLogin, loginSettle, retryLogin, h1, h2]

theorem sequentialLogins_inv (s : AtombergApiState) (os : List LoginOutcome)
    (h : LoginInv s) : LoginInv (sequentialLogins s os) := by
  induction os generalizing s with
  | nil => exact h
  | cons o rest ih => exact ih _ (loginInv_step s o h)

/-- C1 (counterexample): two concurrent in-flight logins — both synchronous
prefixes run before either response settles — that both succeed leave two
active refresh intervals, because each success branch calls `setInterval` and
only the last handle is retained in `_loginRefreshInterval`; the claim's
"after the logins complete at most one refresh interval remains active" is
false. -/
theorem c1_concurrent_logins_counterexample :
    (runLogin initialApiState
      [.start, .start, .settle (.success "t1"),
        .settle (.success "t2")]).activeRefreshTimers.length = 2 ∧
    ¬ (runLogin initialApiState
      [.start, .start, .settle (.success "t1"),
        .settle (.success "t2")]).activeRefreshTimers.length ≤ 1 := by
  constructor <;> decide

/-- C1 (amended): each `login()` synchronously cancels every pending retry
timeout recorded in `_loginRetryTimeouts` and the stored refresh interval
before issuing its request, and any sequence of non-overlapping logins
leaves at most one active refresh interval and at most one pending retry
timeout; the at-most-one bound does not extend to concurrent in-flight
logins. -/
theorem c1_login_cancels_and_sequential_coalesces :
    (∀ (s : AtombergApiState) (r : Nat),
      s.loginRefreshInterval = some r →
      (∀ i ∈ s.activeRetryTimers, i ∈ s.loginRetryTimeouts) →
      (loginStart s).activeRetryTimers = [] ∧
        r ∉ (loginStart s).activeRefreshTimers) ∧
    (∀ outcomes : List LoginOutcome,
      (sequentialLogins initialApiState outcomes).activeRefreshTimers.length ≤ 1 ∧
      (sequentialLogins initialApiState outcomes).activeRetryTimers.length ≤ 1) := by
  constructor
  · intro s r hr hsub
    exact ⟨loginStart_clears s hsub, loginStart_refresh_cleared s r hr⟩
  · intro outcomes
    obtain ⟨-, hlen, href⟩ := sequentialLogins_inv initialApiState outcomes loginInv_initial
    refine ⟨?_, hlen⟩
    rcases href with h0 | ⟨r, -, hl⟩
    · simp [h0]
    · simp [hl]

/-- Witness for C1 at a concrete state (stored interval 3 active, retry
timeout 5 pending and recorded) and a concrete outcome sequence. -/
theorem c1_login_cancels_witness :
    ((loginStart ⟨"tok", some 3, [5], [5], [3], 6⟩).activeRetryTimers = [] ∧
      3 ∉ (loginStart ⟨"tok", some 3, [5], [5], [3], 6⟩).activeRefreshTimers) ∧
    ((sequentialLogins initialApiState
        [.success "t1", .transportError "err"]).activeRefreshTimers.length ≤ 1 ∧
      (sequentialLogins initialApiState
        [.success "t1", .transportError "err"]).activeRetryTimers.length ≤ 1) :=
  ⟨c1_login_cancels_and_sequential_coalesces.1 ⟨"tok", some 3, [5], [5], [3], 6⟩ 3
      rfl (by decide),
    c1_login_cancels_and_sequential_coalesces.2 [.success "t1", .transportError "err"]⟩

/-- C2 (counterexample): a transport failure (axios rejection) reaches the
`.catch` branch, which calls `retryLogin` without touching `accessToken` —
the previously stored token survives, so "the stored access token is cleared
for every failing outcome" is false. -/
theorem c2_transport_error_keeps_token :
    (loginSettle { initialApiState with accessToken := "stale-token" }
        (.transportError "connect ECONNREFUSED")).1.accessToken = "stale-token" ∧
    "stale-token" ≠ "" := by
  constructor
  · rfl
  · decide

/-- C2 (amended): a 2xx response whose status field is not "Success" clears
the stored access token and schedules exactly one retry after
`LOGIN_RETRY_DELAY`; a non-2xx response or network error also schedules
exactly one retry after `LOGIN_RETRY_DELAY` but leaves the stored access
token unchanged. -/
theorem c2_login_failure_schedules_one_retry :
    (∀ (s : AtombergApiState) (msg : String),
      (loginSettle s (.badStatus msg)).1.accessToken = "" ∧
      (loginSettle s (.badStatus msg)).2.1
        = [{ kind := .retry, delay := LOGIN_RETRY_DELAY }]) ∧
    (∀ (s : AtombergApiState) (e : String),
      (loginSettle s (.transportError e)).1.accessToken = s.accessToken ∧
      (loginSettle s (.transportError e)).2.1
        = [{ kind := .retry, delay := LOGIN_RETRY_DELAY }]) := by
  refine ⟨fun s msg => ⟨rfl, rfl⟩, fun s e => ⟨rfl, rfl⟩⟩

/-- C10: `login()` never rejects — every settlement fulfills the promise,
always with `undefined` — so the platform's `if (!res)` check
(platform.ts, lines 63–72) sees a falsy value on success and on failure
alike and cannot distinguish them. -/
theorem c10_login_always_fulfills_undefined :
    (∀ (s : AtombergApiState) (o : LoginOutcome),
      (loginSettle s o).2.2 = Except.ok JsValue.undefined) ∧
    (∀ (s1 : AtombergApiState) (o1 : LoginOutcome)
        (s2 : AtombergApiState) (o2 : LoginOutcome),
      (loginSettle s1 o1).2.2 = (loginSettle s2 o2).2.2) ∧
    (∀ (s : AtombergApiState) (o : LoginOutcome) (v : JsValue),
      (loginSettle s o).2.2 = Except.ok v → jsTruthy v = false) := by
  have hall : ∀ (s : AtombergApiState) (o : LoginOutcome),
      (loginSettle s o).2.2 = Except.ok JsValue.undefined := by
    intro s o
    cases o <;> rfl
  refine ⟨hall, fun s1 o1 s2 o2 => by rw [hall, hall], ?_⟩
  intro s o v hv
  cases v
  rfl

/-- Witness for C10 at a successful login: the resolved value is
`undefined`, and the platform check treats it as falsy. -/
theorem c10_login_always_fulfills_witness :
    (loginSettle initialApiState (.success "tok")).2.2
        = Except.ok JsValue.undefined ∧
    jsTruthy JsValue.undefined = false :=
  ⟨c10_login_always_fulfills_undefined.1 initialApiState (.success "tok"),
    c10_login_always_fulfills_undefined.2.2 initialApiState (.success "tok")
      JsValue.undefined rfl⟩

/-! ## Broadcast decoder theorems -/

theorem parseMessage_eq_some (message : List Nat) (st : AtombergFanDeviceState) :
    parseMessage message = some st ↔ parseMessageBody message = .ok st := by
  unfold parseMessage
  cases h : parseMessageBody message <;> simp

theorem parseMessageBody_ok_shape (message : List Nat) (st : AtombergFanDeviceState)
    (h : parseMessageBody message = .ok st) :
    ∃ (j : Json) (ss : List Char),
      st = decodeStateCode (getDeviceId j)
        ((jsToNumber (takeUntilComma ss)).getD 0) := by
  simp only [parseMessageBody] at h
  split at h
  · exact absurd h (by simp)
  · split at h
    · exact absurd h (by simp)
    · injection h with h1
      exact ⟨_, _, h1.symm⟩

theorem decode_speed_range (did : Option Json) (c : Int) :
    0 ≤ (decodeStateCode did c).last_recorded_speed ∧
    (decodeStateCode did c).last_recorded_speed ≤ 7 := by
  rw [decode_speed]
  constructor
  · positivity
  · exact_mod_cast Nat.le_of_lt_succ (Nat.mod_lt _ (by norm_num))

/-- C3: broadcast decoding is total and deterministic: every byte input
either yields a `DeviceState` or the `try` block's fault is caught and
converted to the failure value `null` — never propagated — and equal inputs
yield equal results; in particular non-hex text and a payload missing
`state_string` both decode to `null`. -/
theorem c3_parse_total_deterministic :
    (∀ message : List Nat,
      (∃ st, parseMessageBody message = .ok st ∧ parseMessage message = some st) ∨
      (∃ msg, parseMessageBody message = .error msg ∧ parseMessage message = none)) ∧
    (∀ m1 m2 : List Nat, m1 = m2 → parseMessage m1 = parseMessage m2) ∧
    parseMessage datagramBadHex = none ∧
    parseMessage datagramMissingField = none := by
  refine ⟨?_, ?_, rfl, rfl⟩
  · intro message
    cases hbody : parseMessageBody message with
    | ok st => exact .inl ⟨st, rfl, by simp [parseMessage, hbody]⟩
    | error msg => exact .inr ⟨msg, rfl, by simp [parseMessage, hbody]⟩
  · intro m1 m2 h
    rw [h]

/-- Witness for C3's determinism clause at a concrete datagram. -/
theorem c3_parse_deterministic_witness :
    parseMessage datagramSpeed7 = parseMessage datagramSpeed7 :=
  c3_parse_total_deterministic.2.1 datagramSpeed7 datagramSpeed7 rfl

/-- C5 (counterexample): the well-formed broadcast with state code 7 decodes
successfully to `last_recorded_speed = 7`, outside the claimed range
`[0,6]` — the decoder masks three bits and never clamps to 6. -/
theorem c5_speed_seven_counterexample :
    Option.map (fun st => st.last_recorded_speed) (parseMessage datagramSpeed7)
      = some 7 ∧
    ¬ ((7 : Int) ≤ 6) := by
  constructor
  · rfl
  · decide

/-- C5 (amended): every successfully decoded broadcast datagram has
`last_recorded_speed` in `[0,7]` (the low three bits of the state code). -/
theorem c5_decoded_speed_range (message : List Nat) (st : AtombergFanDeviceState)
    (h : parseMessage message = some st) :
    0 ≤ st.last_recorded_speed ∧ st.last_recorded_speed ≤ 7 := by
  obtain ⟨j, ss, hst⟩ :=
    parseMessageBody_ok_shape message st ((parseMessage_eq_some message st).mp h)
  rw [hst]
  exact decode_speed_range _ _

/-- Witness for C5's amended range at the concrete state-code-7 datagram. -/
theorem c5_decoded_speed_range_witness :
    0 ≤ (decodeStateCode (some (Json.str ['x'])) 7).last_recorded_speed ∧
    (decodeStateCode (some (Json.str ['x'])) 7).last_recorded_speed ≤ 7 :=
  c5_decoded_speed_range datagramSpeed7 _ rfl

/-- C6 (counterexample): at state code `0x80000000` the decoder yields
`timer_time_elapsed_mins = -512`, not the claimed non-negative
`((c &&& 0xFF000000) >>> 24) * 4 = 512`: JavaScript's `&` returns a signed
32-bit value, so a set bit 31 makes the masked product negative. -/
theorem c6_elapsed_negative_counterexample :
    (decodeStateCode none ((2147483648 : Nat) : Int)).timer_time_elapsed_mins
        = -512 ∧
    ((2147483648 : Nat) / 16777216) * 4 = 512 ∧
    ¬ (0 ≤ (decodeStateCode none
        ((2147483648 : Nat) : Int)).timer_time_elapsed_mins) := by
  have h := decode_elapsed none 2147483648 (by norm_num)
  rw [h]
  norm_num

/-- C6 (amended): for a 32-bit state code with bit 31 clear, the decoded
elapsed minutes is the top byte times 4, in `[0, 1020]`; with bit 31 set the
signed bitwise-and makes it `(top byte - 256) * 4`, in `[-512, -4]`. -/
theorem c6_elapsed_top_byte (u : Nat) (hu : u < 4294967296) :
    (u < 2147483648 →
      (decodeStateCode none (u : Int)).timer_time_elapsed_mins
          = ((u / 16777216 : Nat) : Int) * 4 ∧
      0 ≤ (decodeStateCode none (u : Int)).timer_time_elapsed_mins ∧
      (decodeStateCode none (u : Int)).timer_time_elapsed_mins ≤ 1020) ∧
    (2147483648 ≤ u →
      (decodeStateCode none (u : Int)).timer_time_elapsed_mins
          = ((u / 16777216 : Nat) : Int) * 4 - 1024 ∧
      -512 ≤ (decodeStateCode none (u : Int)).timer_time_elapsed_mins ∧
      (decodeStateCode none (u : Int)).timer_time_elapsed_mins ≤ -4) := by
  have h := decode_elapsed none u hu
  constructor
  · intro h31
    rw [h, if_pos h31]
    refine ⟨rfl, by positivity, ?_⟩
    have hq : u / 16777216 ≤ 127 := by omega
    have : ((u / 16777216 : Nat) : Int) ≤ 127 := by exact_mod_cast hq
    omega
  · intro h31
    rw [h, if_neg (by omega)]
    have hq1 : 128 ≤ u / 16777216 := by omega
    have hq2 : u / 16777216 ≤ 255 := by omega
    have h1 : (128 : Int) ≤ ((u / 16777216 : Nat) : Int) := by exact_mod_cast hq1
    have h2 : ((u / 16777216 : Nat) : Int) ≤ 255 := by exact_mod_cast hq2
    refine ⟨rfl, by omega, by omega⟩

/-- Witness for C6 at state code `0xFF000000` (top byte 255, bit 31 set):
the decoded elapsed minutes is `(255 - 256) * 4 = -4`. -/
theorem c6_elapsed_top_byte_witness :
    (decodeStateCode none ((4278190080 : Nat) : Int)).timer_time_elapsed_mins
        = -4 := by
  have h := (c6_elapsed_top_byte 4278190080 (by norm_num)).2 (by norm_num)
  rw [h.1]
  norm_num

/-- C7: a single reconciliation pass over remote inventory `R` and local
registry `L` (keyed by device identifier) computes three pairwise disjoint
sets with `added ∪ updated = R` and `removed = L \ R`. -/
theorem c7_reconciliation_partition (remote cached : List String) :
    (∀ d, ¬ (d ∈ (discoverPartition remote cached).1 ∧
        d ∈ (discoverPartition remote cached).2.1)) ∧
    (∀ d, ¬ (d ∈ (discoverPartition remote cached).1 ∧
        d ∈ (discoverPartition remote cached).2.2)) ∧
    (∀ d, ¬ (d ∈ (discoverPartition remote cached).2.1 ∧
        d ∈ (discoverPartition remote cached).2.2)) ∧
    (∀ d, (d ∈ (discoverPartition remote cached).1 ∨
        d ∈ (discoverPartition remote cached).2.1) ↔ d ∈ remote) ∧
    (∀ d, d ∈ (discoverPartition remote cached).2.2 ↔
        d ∈ cached ∧ d ∉ remote) := by
  refine ⟨?_, ?_, ?_, ?_, ?_⟩ <;> intro d <;>
    simp [discoverPartition, List.mem_filter] <;> tauto

/-- C8: `refreshDeviceStatus` with an offline state returns before any
characteristic update: the consumer-visible `Active` and `RotationSpeed`
values are unchanged. -/
theorem c8_offline_preserves_service (svc : FanServiceState)
    (st : AtombergFanDeviceState) (h : st.is_online = false) :
    refreshDeviceStatus svc st = svc := by
  simp [refreshDeviceStatus, h]

/-- Witness for C8: an offline state (power on, speed 3) leaves a service
showing active with speed value 60 untouched. -/
theorem c8_offline_preserves_service_witness :
    refreshDeviceStatus ⟨1, 60⟩ offlineStateExample = ⟨1, 60⟩ :=
  c8_offline_preserves_service ⟨1, 60⟩ offlineStateExample rfl

/-- C9: with an empty stored access token, each of the three API operations
rejects immediately with the unauthenticated message; no request value is
produced, so no network call is made. -/
theorem c9_empty_token_rejects (token : String)
    (data : AtombergFanCommandData) (h : token = "") :
    getAllDevicesGate token = .error noAuthTokenMsg ∧
    getDeviceStateGate token = .error noAuthTokenMsg ∧
    sendCommandGate token data = .error noAuthTokenMsg := by
  subst h
  exact ⟨rfl, rfl, rfl⟩

/-- Witness for C9 with a concrete command payload. -/
theorem c9_empty_token_rejects_witness :
    getAllDevicesGate "" = .error noAuthTokenMsg ∧
    getDeviceStateGate "" = .error noAuthTokenMsg ∧
    sendCommandGate "" ⟨"device-1", some true, some 3⟩ = .error noAuthTokenMsg :=
  c9_empty_token_rejects "" ⟨"device-1", some true, some 3⟩ rfl
